import Mathlib

/-
Verification development for the FSX on-screen menu / overlay pair
(`fs42/osd/fsx_menu.py`, `fs42/osd/fsx_overlay.py`).

The Python code is shallowly embedded: SQLite queries over the
`schedule_events` table become pure list functions over a list of rows,
machine-level side effects (spawned mpv helper processes) become an explicit
process table, and fallible operations return `Except`.  Python exceptions
are represented by `Except .error`; a `try/except` block in the source
becomes an explicit `match` that converts `.error` back to a value.

Modelling notes, recorded once here:
* Timestamps and offsets are `Int` (the Python code works with `int`
  seconds; the lone `float(offset)` conversion is value-preserving).
* SQLite `ORDER BY ... LIMIT 1` with ties is not deterministic in SQLite;
  the embedding resolves ties deterministically towards the earliest row in
  table order.  No claim depends on tie order.
* `CAST(channel_id AS INTEGER)` is modelled by `castInt`, parsing an
  optional sign followed by a digit prefix (leading-whitespace handling of
  SQLite is dropped; no claim uses it).
* Store connectivity / query failure is modelled by the `fail` flag of
  `Conn`: when set, every `conn.execute` raises (returns `.error`), which
  is exactly the situation of a missing or corrupt `schedule_events` table.
-/

namespace FSX

/-- A Python exception escaping a function (IndexError and friends). -/
structure PyErr where
  msg : String
deriving Repr, DecidableEq

/-- A sqlite3 error raised by `conn.execute`. -/
structure SqlErr where
  msg : String
deriving Repr, DecidableEq

/-- Python `str.strip()`: drop leading and trailing whitespace. -/
def pyStrip (s : String) : String :=
  String.mk (((s.toList.dropWhile Char.isWhitespace).reverse.dropWhile Char.isWhitespace).reverse)

/-- Python `pathlib.Path(p).name`: the last nonempty `/`-separated segment
(the `.`/`..` special cases of pathlib are not distinguished; no claim uses
them). -/
def pathName (p : String) : String :=
  (((p.splitOn "/").filter (fun seg => seg ≠ "")).getLastD "")

/-- Index of the last `.` in a list of characters, if any. -/
def lastDotIdx (cs : List Char) : Option Nat :=
  ((List.range cs.length).filter (fun i => cs.get? i = some ('.' : Char))).getLast?

/-- Python `pathlib.Path(n).stem` for a bare file name `n`: strip the final
extension; a dot at position 0 or at the very end does not start an
extension. -/
def pathStem (n : String) : String :=
  let cs := n.toList
  match lastDotIdx cs with
  | some i => if 0 < i ∧ i + 1 < cs.length then String.mk (cs.take i) else n
  | none => n

/-- `_safe_title_from_path` from `fsx_menu.py`: derive a human-readable
title from a media path (basename, strip extension, `_`/`.` to spaces,
strip; fall back to the basename when that leaves nothing). -/
def safe_title_from_path (path : String) : String :=
  let base := pathName path
  let stem := pathStem base
  let cleaned := pyStrip (String.map (fun c => if c = '_' then ' ' else if c = '.' then ' ' else c) stem)
  if cleaned = "" then base else cleaned

/-- Value of a leading decimal-digit prefix. -/
def leadDigits : List Char → Nat → Nat
  | c :: cs, acc => if c.isDigit then leadDigits cs (10 * acc + (c.toNat - 48)) else acc
  | [], acc => acc

/-- SQLite `CAST(s AS INTEGER)`: optional sign followed by a digit prefix;
anything non-numeric casts to 0. -/
def castInt (s : String) : Int :=
  match s.toList with
  | '-' :: cs => - (leadDigits cs 0 : Int)
  | '+' :: cs => (leadDigits cs 0 : Int)
  | cs => (leadDigits cs 0 : Int)

/-- Python list index normalisation: negative indices count from the end. -/
def pyNorm (len : Nat) (i : Int) : Int :=
  if i < 0 then (len : Int) + i else i

/-- Python `l[i]` on a list: negative indices count from the end, anything
out of range raises `IndexError`. -/
def pyIdx {α : Type} (l : List α) (i : Int) : Except PyErr α :=
  if 0 ≤ pyNorm l.length i then
    match l[(pyNorm l.length i).toNat]? with
    | some a => Except.ok a
    | none => Except.error ⟨"list index out of range"⟩
  else Except.error ⟨"list index out of range"⟩

/-- One row of the `schedule_events` table.  `title`, `path`, `channel_name`
and `tag` are optional columns (`none` also stands for SQL NULL). -/
structure Row where
  channel_id : String
  start_utc : Int
  end_utc : Int
  title : Option String
  path : Option String
  channel_name : Option String
  tag : Option String
deriving Repr, DecidableEq

/-- A read-only connection to the schedule store: its rows, which optional
columns the schema has, and whether queries against it raise. -/
structure Conn where
  rows : List Row
  hasTitle : Bool
  hasPath : Bool
  hasChannelName : Bool
  fail : Bool
deriving Repr, DecidableEq

/-- Stable insertion into a list sorted by an `Int` key. -/
def insertByKey {α : Type} (key : α → Int) (x : α) : List α → List α
  | [] => [x]
  | y :: ys => if key x ≤ key y then x :: y :: ys else y :: insertByKey key x ys

/-- Insertion sort by an `Int` key, modelling SQL `ORDER BY key ASC`. -/
def sortByKey {α : Type} (key : α → Int) : List α → List α
  | [] => []
  | x :: xs => insertByKey key x (sortByKey key xs)

/-- First element (table order) attaining the maximal `start_utc`, modelling
`ORDER BY start_utc DESC LIMIT 1`. -/
def argmaxStart : List Row → Option Row
  | [] => none
  | r :: rs =>
    match argmaxStart rs with
    | none => some r
    | some b => if r.start_utc < b.start_utc then some b else some r

/-- First element (table order) attaining the minimal `start_utc`, modelling
`ORDER BY start_utc ASC LIMIT 1`. -/
def argminStart : List Row → Option Row
  | [] => none
  | r :: rs =>
    match argminStart rs with
    | none => some r
    | some b => if b.start_utc < r.start_utc then some b else some r

/-- `SELECT ... WHERE channel_id=? AND start_utc<=? AND end_utc>? ORDER BY
start_utc DESC LIMIT 1`: the "current" row of a channel. -/
def currentRowQuery (rows : List Row) (cid : String) (now_ts : Int) : Option Row :=
  argmaxStart (rows.filter (fun r =>
    r.channel_id == cid && decide (r.start_utc ≤ now_ts) && decide (now_ts < r.end_utc)))

/-- `SELECT ... WHERE channel_id=? AND start_utc>? ORDER BY start_utc ASC
LIMIT 1`: the immediate next row of a channel. -/
def nextRowQuery (rows : List Row) (cid : String) (now_ts : Int) : Option Row :=
  argminStart (rows.filter (fun r =>
    r.channel_id == cid && decide (now_ts < r.start_utc)))

/-- `schedule_now_next` from `fsx_overlay.py`: the (now, next) pair of raw
store rows for a channel.  The rows are returned as fetched — no field is
rewritten. -/
def schedule_now_next (rows : List Row) (cid : String) (now_ts : Int) :
    Option Row × Option Row :=
  (currentRowQuery rows cid now_ts, nextRowQuery rows cid now_ts)

/-- `SELECT DISTINCT channel_id ... ORDER BY CAST(channel_id AS INTEGER)
ASC`: first occurrences deduplicated, then sorted by numeric value. -/
def dedupFirstAux : List String → List String → List String
  | [], _ => []
  | x :: xs, seen => if x ∈ seen then dedupFirstAux xs seen else x :: dedupFirstAux xs (x :: seen)

/-- The channel list of the guide query, ascending by `castInt`. -/
def distinct_channel_ids (rows : List Row) : List String :=
  sortByKey castInt (dedupFirstAux (rows.map Row.channel_id) [])

/-- `SELECT ... WHERE channel_id=? AND end_utc>? ORDER BY start_utc ASC
LIMIT 6`: the raw event rows backing one guide row. -/
def eventsRowsFor (rows : List Row) (ch : String) (now_ts : Int) : List Row :=
  (sortByKey Row.start_utc (rows.filter (fun r =>
    r.channel_id == ch && decide (now_ts < r.end_utc)))).take 6

/-- One event of the guide snapshot (the `{title,start,end}` dict). -/
structure GEvent where
  title : String
  start_ : Int
  end_ : Int
deriving Repr, DecidableEq

/-- One channel of the guide snapshot (the `{id,name,events}` dict). -/
structure GChannel where
  id : String
  name : String
  events : List GEvent
deriving Repr, DecidableEq

/-- The first stage of the title derivation in `load_channels_and_events`:
the stored title, stripped, when the schema has one. -/
def title_pass1 (hasT : Bool) (r : Row) : String :=
  if hasT then pyStrip (r.title.getD "") else ""

/-- The second stage: fall back to a path-derived title when the first
stage came up empty and the schema has a `path` column. -/
def title_pass2 (hasT hasP : Bool) (r : Row) : String :=
  if title_pass1 hasT r = "" && hasP then safe_title_from_path (r.path.getD "")
  else title_pass1 hasT r

/-- The final title: the `—` placeholder when both stages came up empty. -/
def buildTitle (hasT hasP : Bool) (r : Row) : String :=
  if title_pass2 hasT hasP r = "" then "—" else title_pass2 hasT hasP r

/-- The per-row event construction of `load_channels_and_events`: clamp
`end <= start` to `start + 60` and attach the derived title. -/
def buildEvent (hasT hasP : Bool) (r : Row) : GEvent :=
  { title := buildTitle hasT hasP r
    start_ := r.start_utc
    end_ := if r.end_utc ≤ r.start_utc then r.start_utc + 60 else r.end_utc }

/-- The event list of one guide row: built events, or the synthetic
placeholder spanning `[now, now+3600)` when no row qualifies. -/
def mkEvents (hasT hasP : Bool) (rows : List Row) (ch : String) (now_ts : Int) : List GEvent :=
  if (eventsRowsFor rows ch now_ts).map (buildEvent hasT hasP) = [] then
    [{ title := "—", start_ := now_ts, end_ := now_ts + 3600 }]
  else (eventsRowsFor rows ch now_ts).map (buildEvent hasT hasP)

/-- The channel-name lookup of `load_channels_and_events`: first row of the
channel with a non-NULL nonempty `channel_name` (stripped), else the
`"Channel {id}"` fallback. -/
def channelNameFor (hasCN : Bool) (rows : List Row) (ch : String) : String :=
  if hasCN then
    match (rows.filter (fun r =>
        r.channel_id == ch &&
        (match r.channel_name with | some nm => nm != "" | none => false))).head? with
    | some r => pyStrip (r.channel_name.getD "")
    | none => "Channel " ++ ch
  else "Channel " ++ ch

/-- `_table_has_column`: probes `PRAGMA table_info` and catches its own
exceptions, returning `False` on any failure — it never raises. -/
def table_has_column (c : Conn) (present : Bool) : Bool :=
  if c.fail then false else present

/-- `load_channels_and_events` from `fsx_menu.py`.  The body runs under
`try/finally` (no `except`), so a failing query propagates as `.error`;
`dbExists` is the `SCHED_DB.exists()` guard. -/
def load_channels_and_events (dbExists : Bool) (c : Conn) (now_ts : Int) :
    Except SqlErr (List GChannel) :=
  if dbExists = false then Except.ok []
  else if c.fail then Except.error ⟨"query failed"⟩
  else Except.ok ((distinct_channel_ids c.rows).map (fun ch =>
    { id := ch
      name := channelNameFor (table_has_column c c.hasChannelName) c.rows ch
      events := mkEvents (table_has_column c c.hasTitle) (table_has_column c c.hasPath)
        c.rows ch now_ts }))

/-- The body of `resolve_now_path_and_offset` before its `except` clause.
The query names the `path` column unconditionally, so it raises when the
schema lacks it or the connection fails; a NULL/empty path yields `none`;
otherwise the result is `(path, max 0 (now - start_utc))`. -/
def resolve_body (dbExists : Bool) (c : Conn) (now : Int) (ch_id : String) :
    Except SqlErr (Option (String × Int)) :=
  if dbExists = false then Except.ok none
  else if c.fail || !c.hasPath then Except.error ⟨"query failed"⟩
  else
    match currentRowQuery c.rows ch_id now with
    | none => Except.ok none
    | some r =>
      match r.path with
      | none => Except.ok none
      | some p =>
        if p = "" then Except.ok none
        else Except.ok (some (p, max 0 (now - r.start_utc)))

/-- `resolve_now_path_and_offset` from `fsx_menu.py`: the whole body is
wrapped in `try/except Exception: return None`. -/
def resolve_now_path_and_offset (dbExists : Bool) (c : Conn) (now : Int) (ch_id : String) :
    Option (String × Int) :=
  match resolve_body dbExists c now ch_id with
  | Except.ok r => r
  | Except.error _ => none

/-
Guide-browser facet of `MenuWindow`: the fields touched by
`_enter_guide_mode`, `guide_left`, `guide_right`, `guide_page_up` and
`guide_page_down`.  The preview restart (`_start_preview_from_channel`, which
swallows every failure internally) and the footer update (`set_info`) have no
effect on these fields; they are modelled in the process-handle section
below.  The only operation of these methods that can raise is the unguarded
list indexing `self.guide_rows[self.g_sel_row]`, kept here via `pyIdx`.
-/

/-- The guide-cursor fields of `MenuWindow`.  All indices are `Int`, exactly
as in Python; `g_max_visible` is `GUIDE_MAX_ROWS = 8` at construction. -/
structure GuideState where
  mode : String
  guide_rows : List GChannel
  g_sel_row : Int
  g_sel_col : Int
  g_row_offset : Int
  g_max_visible : Int
deriving Repr, DecidableEq

/-- `_enter_guide_mode`: load the snapshot (catching any load error and
falling back to the empty list), reset the cursor to `(0,0,0)` and switch to
guide mode. -/
def enter_guide_mode (dbExists : Bool) (c : Conn) (now_ts : Int) : GuideState :=
  { mode := "guide"
    guide_rows :=
      match load_channels_and_events dbExists c now_ts with
      | Except.ok rs => rs
      | Except.error _ => []
    g_sel_row := 0
    g_sel_col := 0
    g_row_offset := 0
    g_max_visible := 8 }

/-- `_guide_current_channel_id`: `None` on an empty snapshot, else the id of
the row at the clamped cursor. -/
def guide_current_channel_id (s : GuideState) : Option String :=
  if s.guide_rows = [] then none
  else
    match s.guide_rows[(max 0 (min s.g_sel_row ((s.guide_rows.length : Int) - 1))).toNat]? with
    | some ch => some ch.id
    | none => none

/-- The shared tail of `guide_page_up` / `guide_page_down`: when the clamped
channel id is truthy, restart the preview (no cursor effect, never raises)
and read `self.guide_rows[self.g_sel_row]["name"]` for the footer — the one
unguarded index of these methods. -/
def reanchor_row (s1 : GuideState) : Except PyErr GuideState :=
  match guide_current_channel_id s1 with
  | none => Except.ok s1
  | some ch_id =>
    if ch_id = "" then Except.ok s1
    else
      match pyIdx s1.guide_rows s1.g_sel_row with
      | Except.error e => Except.error e
      | Except.ok _ => Except.ok s1

/-- `guide_left`: column cursor down to 0, never below. -/
def guide_left (s : GuideState) : Except PyErr GuideState :=
  if s.mode ≠ "guide" then Except.ok s
  else Except.ok { s with g_sel_col := max 0 (s.g_sel_col - 1) }

/-- `guide_right`: column cursor up, clamped to the current row's last
event. -/
def guide_right (s : GuideState) : Except PyErr GuideState :=
  if s.mode ≠ "guide" then Except.ok s
  else if s.guide_rows = [] then Except.ok s
  else
    match pyIdx s.guide_rows s.g_sel_row with
    | Except.error e => Except.error e
    | Except.ok row =>
      Except.ok { s with g_sel_col := min (max 0 ((row.events.length : Int) - 1)) (s.g_sel_col + 1) }

/-- `guide_page_up`: row cursor up (clamped at 0), scroll the viewport only
when the cursor left it, then re-anchor.  The column cursor is not
touched. -/
def guide_page_up (s : GuideState) : Except PyErr GuideState :=
  if s.mode ≠ "guide" then Except.ok s
  else if s.guide_rows = [] then Except.ok s
  else
    reanchor_row
      { s with g_sel_row := max 0 (s.g_sel_row - 1)
               g_row_offset :=
                 if max 0 (s.g_sel_row - 1) < s.g_row_offset then max 0 (s.g_sel_row - 1)
                 else s.g_row_offset }

/-- `guide_page_down`: row cursor down (clamped to the last row), scroll the
viewport only when the cursor fell below it, then re-anchor.  The column
cursor is not touched. -/
def guide_page_down (s : GuideState) : Except PyErr GuideState :=
  if s.mode ≠ "guide" then Except.ok s
  else if s.guide_rows = [] then Except.ok s
  else
    reanchor_row
      { s with g_sel_row := min ((s.guide_rows.length : Int) - 1) (s.g_sel_row + 1)
               g_row_offset :=
                 if s.g_row_offset + s.g_max_visible ≤
                     min ((s.guide_rows.length : Int) - 1) (s.g_sel_row + 1) then
                   min ((s.guide_rows.length : Int) - 1) (s.g_sel_row + 1) - s.g_max_visible + 1
                 else s.g_row_offset }

/-- A guide-mode navigation command. -/
inductive GuideOp
  | left
  | right
  | pageUp
  | pageDown
deriving Repr, DecidableEq

/-- Apply one guide navigation command. -/
def applyGuideOp : GuideOp → GuideState → Except PyErr GuideState
  | GuideOp.left, s => guide_left s
  | GuideOp.right, s => guide_right s
  | GuideOp.pageUp, s => guide_page_up s
  | GuideOp.pageDown, s => guide_page_down s

/-- Apply a sequence of guide navigation commands, stopping at the first
uncaught exception. -/
def runGuideOps : List GuideOp → GuideState → Except PyErr GuideState
  | [], s => Except.ok s
  | op :: ops, s =>
    match applyGuideOp op s with
    | Except.ok s1 => runGuideOps ops s1
    | Except.error e => Except.error e

/-
Root-menu facet of `MenuWindow`: the fields touched by `nav_up` / `nav_down`,
the `/menu/nav/pageup` / `/menu/nav/pagedown` branches of `_Http.do_POST`,
and the `Key_PageUp` / `Key_PageDown` branches of `keyPressEvent`.  In guide
mode those dispatchers call the guide methods, which leave every root-menu
field unchanged, so on this facet the guide branch is the identity.
-/

/-- The root-menu fields of `MenuWindow`. -/
structure RootWin where
  visible : Bool
  mode : String
  sel : Int
  sel_last : Int
  items : List String
deriving Repr, DecidableEq

/-- `nav_up`: root cursor one step up, modulo the item count, persisted as
the last selection.  (For an empty item list Python would raise
ZeroDivisionError; every claim assumes a positive item count.) -/
def nav_up (w : RootWin) : RootWin :=
  if w.mode ≠ "root" then w
  else
    { w with sel := (w.sel - 1) % (w.items.length : Int)
             sel_last := (w.sel - 1) % (w.items.length : Int) }

/-- `nav_down`: root cursor one step down, modulo the item count, persisted
as the last selection. -/
def nav_down (w : RootWin) : RootWin :=
  if w.mode ≠ "root" then w
  else
    { w with sel := (w.sel + 1) % (w.items.length : Int)
             sel_last := (w.sel + 1) % (w.items.length : Int) }

/-- The `/menu/nav/pageup` branch of `do_POST`: ignored when hidden, guide
paging in guide mode, and plain `nav_up` otherwise. -/
def do_post_nav_pageup (w : RootWin) : RootWin :=
  if w.visible = false then w
  else if w.mode = "guide" then w
  else nav_up w

/-- The `/menu/nav/pagedown` branch of `do_POST`. -/
def do_post_nav_pagedown (w : RootWin) : RootWin :=
  if w.visible = false then w
  else if w.mode = "guide" then w
  else nav_down w

/-- The `Key_PageUp` branch of `keyPressEvent`: in root mode the cursor
jumps by two, modulo the item count. -/
def key_press_pageup (w : RootWin) : RootWin :=
  if w.visible = false then w
  else if w.mode = "root" then
    { w with sel := (w.sel - 2) % (w.items.length : Int)
             sel_last := (w.sel - 2) % (w.items.length : Int) }
  else w

/-- The `Key_PageDown` branch of `keyPressEvent`. -/
def key_press_pagedown (w : RootWin) : RootWin :=
  if w.visible = false then w
  else if w.mode = "root" then
    { w with sel := (w.sel + 2) % (w.items.length : Int)
             sel_last := (w.sel + 2) % (w.items.length : Int) }
  else w

/-
Process-handle facet: `PreviewWidget` (`self.proc`), `MenuAudio` and
`close_menu`.  External mpv helper processes live in an explicit
`ProcTable`; `subprocess.Popen` becomes `spawn` (allocating a fresh pid and
logging the launch target as `(path, start)` — the remaining mpv flags are
fixed and carry no state), and the graceful-then-forced
`terminate/wait/kill` sequence becomes `kill` (the forced kill always ends
the process; stop failures beyond it are abandoned by the source as well).
`Popen` raising is modelled by the `popenOk` argument: on failure the
handle is left `none` and nothing is spawned.
-/

/-- The table of helper processes: next fresh pid, the pids currently
alive, and a log of every spawn with its anchor `(path, start)`. -/
structure ProcTable where
  nextPid : Nat
  aliveList : List Nat
  spawnLog : List (Nat × String × Int)
deriving Repr, DecidableEq

/-- A pid is alive. -/
def ProcTable.isAlive (t : ProcTable) (p : Nat) : Prop :=
  p ∈ t.aliveList

instance (t : ProcTable) (p : Nat) : Decidable (t.isAlive p) :=
  inferInstanceAs (Decidable (p ∈ t.aliveList))

/-- `subprocess.Popen`: allocate a fresh pid, record it alive, log the
anchor. -/
def spawn (t : ProcTable) (path : String) (startArg : Int) : Nat × ProcTable :=
  (t.nextPid,
   { nextPid := t.nextPid + 1
     aliveList := t.nextPid :: t.aliveList
     spawnLog := (t.nextPid, path, startArg) :: t.spawnLog })

/-- Force-kill a pid. -/
def kill (t : ProcTable) (p : Nat) : ProcTable :=
  { t with aliveList := t.aliveList.filter (fun q => q != p) }

/-- `PreviewWidget.stop_preview`: if an owned process is still running
(`poll() is None`), terminate/kill it; always clear the handle. -/
def stop_preview (h : Option Nat) (t : ProcTable) : Option Nat × ProcTable :=
  match h with
  | none => (none, t)
  | some p => (none, if t.isAlive p then kill t p else t)

/-- `PreviewWidget.start_preview`: stop any previous preview first, then
spawn mpv anchored at `(path, max 0 start_sec)`; a `Popen` failure leaves
the handle `none`. -/
def start_preview (h : Option Nat) (t : ProcTable) (path : String) (start_sec : Int)
    (popenOk : Bool) : Option Nat × ProcTable :=
  if popenOk then
    (some (spawn (stop_preview h t).2 path (max 0 start_sec)).1,
     (spawn (stop_preview h t).2 path (max 0 start_sec)).2)
  else (none, (stop_preview h t).2)

/-- The `MenuAudio` manager: its fixed path, the volume clamped to
`[0,100]` at construction, and the owned process handle. -/
structure MenuAudio where
  path : String
  volume : Int
  proc : Option Nat
deriving Repr, DecidableEq

/-- `MenuAudio.__init__`: clamp the volume, own no process yet. -/
def menu_audio_init (path : String) (volume : Int) : MenuAudio :=
  { path := path, volume := max 0 (min 100 volume), proc := none }

/-- `MenuAudio.stop`: same graceful-then-forced stop as the preview. -/
def menu_audio_stop (a : MenuAudio) (t : ProcTable) : MenuAudio × ProcTable :=
  match a.proc with
  | none => ({ a with proc := none }, t)
  | some p => ({ a with proc := none }, if t.isAlive p then kill t p else t)

/-- `MenuAudio.start`: missing audio file returns early (keeping any
running process); otherwise stop the previous process and spawn the
looping player. -/
def menu_audio_start (a : MenuAudio) (t : ProcTable) (pathExists : Bool) (popenOk : Bool) :
    MenuAudio × ProcTable :=
  if pathExists = false then (a, t)
  else if popenOk then
    ({ (menu_audio_stop a t).1 with
        proc := some (spawn (menu_audio_stop a t).2 a.path 0).1 },
     (spawn (menu_audio_stop a t).2 a.path 0).2)
  else ({ (menu_audio_stop a t).1 with proc := none }, (menu_audio_stop a t).2)

/-- A preview-handle command: `start_preview path off` (with the spawn
outcome) or `stop_preview`. -/
inductive PrevOp
  | start (path : String) (off : Int) (popenOk : Bool)
  | stop
deriving Repr, DecidableEq

/-- Apply one preview command. -/
def applyPrevOp : PrevOp → Option Nat × ProcTable → Option Nat × ProcTable
  | PrevOp.start p off ok, st => start_preview st.1 st.2 p off ok
  | PrevOp.stop, st => stop_preview st.1 st.2

/-- Apply a sequence of preview commands. -/
def runPrevOps : List PrevOp → Option Nat × ProcTable → Option Nat × ProcTable
  | [], st => st
  | op :: ops, st => runPrevOps ops (applyPrevOp op st)

/-- A background-audio command. -/
inductive AudOp
  | start (pathExists : Bool) (popenOk : Bool)
  | stop
deriving Repr, DecidableEq

/-- Apply one audio command. -/
def applyAudOp : AudOp → MenuAudio × ProcTable → MenuAudio × ProcTable
  | AudOp.start pe ok, st => menu_audio_start st.1 st.2 pe ok
  | AudOp.stop, st => menu_audio_stop st.1 st.2

/-- Apply a sequence of audio commands. -/
def runAudOps : List AudOp → MenuAudio × ProcTable → MenuAudio × ProcTable
  | [], st => st
  | op :: ops, st => runAudOps ops (applyAudOp op st)

/-- An empty process table. -/
def initTable : ProcTable :=
  { nextPid := 0, aliveList := [], spawnLog := [] }

/-- The fields of `MenuWindow` that `close_menu` touches: mode, visibility
and the two process handles. -/
structure AVWin where
  mode : String
  visible : Bool
  preview_proc : Option Nat
  audio : MenuAudio
deriving Repr, DecidableEq

/-- `close_menu`: stop the background audio, stop the preview, hide the
footer and the window, then ask the upstream player to resume live
(`_return_to_live` is pure HTTP/IPC traffic with no owned-process
effect). -/
def close_menu (w : AVWin) (t : ProcTable) : AVWin × ProcTable :=
  ({ w with audio := (menu_audio_stop w.audio t).1
            preview_proc := (stop_preview w.preview_proc (menu_audio_stop w.audio t).2).1
            visible := false },
   (stop_preview w.preview_proc (menu_audio_stop w.audio t).2).2)

/-- Number of live processes a handle owns (0 or 1). -/
def ownedLive (h : Option Nat) (t : ProcTable) : Nat :=
  match h with
  | some p => if t.isAlive p then 1 else 0
  | none => 0

/-
Generic lemmas about the embedded query operators.
-/

theorem mem_insertByKey {α : Type} (key : α → Int) (x z : α) (l : List α)
    (h : z ∈ insertByKey key x l) : z = x ∨ z ∈ l := by
  induction l with
  | nil => simp [insertByKey] at h; tauto
  | cons y ys ih =>
    rw [insertByKey] at h
    split at h
    · simp only [List.mem_cons] at h ⊢
      tauto
    · simp only [List.mem_cons] at h ⊢
      rcases h with h | h
      · tauto
      · rcases ih h with h | h <;> tauto

theorem pairwise_insertByKey {α : Type} (key : α → Int) (x : α) (l : List α)
    (h : l.Pairwise (fun a b => key a ≤ key b)) :
    (insertByKey key x l).Pairwise (fun a b => key a ≤ key b) := by
  induction l with
  | nil => simp [insertByKey]
  | cons y ys ih =>
    rw [insertByKey]
    rcases List.pairwise_cons.mp h with ⟨hy, hys⟩
    split
    · rename_i hxy
      refine List.pairwise_cons.mpr ⟨?_, h⟩
      intro z hz
      rcases List.mem_cons.mp hz with rfl | hz
      · exact hxy
      · exact le_trans hxy (hy z hz)
    · rename_i hxy
      refine List.pairwise_cons.mpr ⟨?_, ih hys⟩
      intro z hz
      rcases mem_insertByKey key x z ys hz with rfl | hz
      · omega
      · exact hy z hz

theorem pairwise_sortByKey {α : Type} (key : α → Int) (l : List α) :
    (sortByKey key l).Pairwise (fun a b => key a ≤ key b) := by
  induction l with
  | nil => simp [sortByKey]
  | cons x xs ih => exact pairwise_insertByKey key x _ ih

theorem mem_of_mem_sortByKey {α : Type} (key : α → Int) (z : α) (l : List α)
    (h : z ∈ sortByKey key l) : z ∈ l := by
  induction l with
  | nil => simp [sortByKey] at h
  | cons x xs ih =>
    rw [sortByKey] at h
    rcases mem_insertByKey key x z _ h with rfl | h
    · exact List.mem_cons_self _ _
    · exact List.mem_cons_of_mem _ (ih h)

theorem argmaxStart_mem : ∀ {l : List Row} {r : Row}, argmaxStart l = some r → r ∈ l := by
  intro l
  induction l with
  | nil => intro r h; simp [argmaxStart] at h
  | cons a as ih =>
    intro r h
    rw [argmaxStart] at h
    cases hrec : argmaxStart as with
    | none =>
      rw [hrec] at h
      injection h with h2
      exact h2 ▸ List.mem_cons_self _ _
    | some b =>
      rw [hrec] at h
      dsimp only at h
      by_cases hlt : a.start_utc < b.start_utc
      · rw [if_pos hlt] at h
        injection h with h2
        exact List.mem_cons_of_mem _ (ih (h2 ▸ hrec))
      · rw [if_neg hlt] at h
        injection h with h2
        exact h2 ▸ List.mem_cons_self _ _

theorem argminStart_mem : ∀ {l : List Row} {r : Row}, argminStart l = some r → r ∈ l := by
  intro l
  induction l with
  | nil => intro r h; simp [argminStart] at h
  | cons a as ih =>
    intro r h
    rw [argminStart] at h
    cases hrec : argminStart as with
    | none =>
      rw [hrec] at h
      injection h with h2
      exact h2 ▸ List.mem_cons_self _ _
    | some b =>
      rw [hrec] at h
      dsimp only at h
      by_cases hlt : b.start_utc < a.start_utc
      · rw [if_pos hlt] at h
        injection h with h2
        exact List.mem_cons_of_mem _ (ih (h2 ▸ hrec))
      · rw [if_neg hlt] at h
        injection h with h2
        exact h2 ▸ List.mem_cons_self _ _

theorem pyIdx_ok {α : Type} (l : List α) (i : Int) (h0 : 0 ≤ i)
    (h1 : i < (l.length : Int)) : ∃ a, pyIdx l i = Except.ok a := by
  have hj : pyNorm l.length i = i := by
    unfold pyNorm
    rw [if_neg (by omega)]
  have hlt : i.toNat < l.length := by omega
  refine ⟨l[i.toNat], ?_⟩
  unfold pyIdx
  rw [hj, if_pos h0, List.getElem?_eq_getElem hlt]

/-
Facts about the guide-snapshot event lists shared by several claims.
-/

theorem mem_eventsRowsFor {rows : List Row} {ch : String} {now_ts : Int} {r : Row}
    (h : r ∈ eventsRowsFor rows ch now_ts) :
    r.channel_id = ch ∧ now_ts < r.end_utc := by
  unfold eventsRowsFor at h
  have h2 := mem_of_mem_sortByKey Row.start_utc r _ (List.mem_of_mem_take h)
  have h3 := (List.mem_filter.mp h2).2
  simp only [Bool.and_eq_true, beq_iff_eq, decide_eq_true_eq] at h3
  exact h3

theorem mkEvents_props (hasT hasP : Bool) (rows : List Row) (ch : String) (now_ts : Int)
    (e : GEvent) (he : e ∈ mkEvents hasT hasP rows ch now_ts) :
    e.start_ < e.end_ ∧ now_ts < e.end_ := by
  unfold mkEvents at he
  split at he
  · simp only [List.mem_singleton] at he
    subst he
    refine ⟨?_, ?_⟩ <;> dsimp only <;> omega
  · rcases List.mem_map.mp he with ⟨r, hr, rfl⟩
    have hend : now_ts < r.end_utc := (mem_eventsRowsFor hr).2
    unfold buildEvent
    refine ⟨?_, ?_⟩ <;> dsimp only <;> split <;> omega

theorem mkEvents_chain (hasT hasP : Bool) (rows : List Row) (ch : String) (now_ts : Int) :
    (mkEvents hasT hasP rows ch now_ts).Chain' (fun a b => a.start_ ≤ b.start_) := by
  unfold mkEvents
  split
  · exact List.chain'_singleton _
  · apply (List.chain'_map (buildEvent hasT hasP)).mpr
    have hs : (sortByKey Row.start_utc (rows.filter (fun r =>
        r.channel_id == ch && decide (now_ts < r.end_utc)))).Pairwise
        (fun a b => a.start_utc ≤ b.start_utc) := pairwise_sortByKey _ _
    have ht := hs.sublist (List.take_sublist 6 _)
    exact ht.chain'

theorem mkEvents_len (hasT hasP : Bool) (rows : List Row) (ch : String) (now_ts : Int) :
    (mkEvents hasT hasP rows ch now_ts).length ≤ 6 := by
  unfold mkEvents
  split
  · simp
  · rw [List.length_map]
    unfold eventsRowsFor
    have := List.length_take_le 6 (sortByKey Row.start_utc (rows.filter (fun r =>
      r.channel_id == ch && decide (now_ts < r.end_utc))))
    omega

/-
Concrete stores used as witnesses and counterexamples.
-/

/-- A healthy demo store: channel "1" with three rows still running or
upcoming at `now = 1000`, channel "2" with one. -/
def demoConn : Conn :=
  { rows := [
      { channel_id := "1", start_utc := 900, end_utc := 2000,
        title := none, path := none, channel_name := none, tag := none },
      { channel_id := "1", start_utc := 2000, end_utc := 3000,
        title := none, path := none, channel_name := none, tag := none },
      { channel_id := "1", start_utc := 3000, end_utc := 4000,
        title := none, path := none, channel_name := none, tag := none },
      { channel_id := "2", start_utc := 900, end_utc := 2000,
        title := none, path := none, channel_name := none, tag := none } ]
    hasTitle := false
    hasPath := false
    hasChannelName := false
    fail := false }

/-- First channel of the snapshot `load_channels_and_events` builds from
`demoConn` at `now = 1000`. -/
def demoCh1 : GChannel :=
  { id := "1"
    name := "Channel 1"
    events := [
      { title := "—", start_ := 900, end_ := 2000 },
      { title := "—", start_ := 2000, end_ := 3000 },
      { title := "—", start_ := 3000, end_ := 4000 }] }

/-- Second channel of that snapshot. -/
def demoCh2 : GChannel :=
  { id := "2", name := "Channel 2", events := [{ title := "—", start_ := 900, end_ := 2000 }] }

/-- The demo snapshot. -/
def demoChans : List GChannel := [demoCh1, demoCh2]

/-- The first demo event. -/
def demoEv : GEvent := { title := "—", start_ := 900, end_ := 2000 }

/-- A store whose every query raises (missing or corrupt table). -/
def failConn : Conn :=
  { rows := [], hasTitle := false, hasPath := false, hasChannelName := false, fail := true }

/-- A healthy store with no rows. -/
def emptyConn : Conn :=
  { rows := [], hasTitle := false, hasPath := false, hasChannelName := false, fail := false }

/-- The spec's degenerate row: `start = end = 500` on channel "7". -/
def badRow : Row :=
  { channel_id := "7", start_utc := 500, end_utc := 500,
    title := none, path := none, channel_name := none, tag := none }

/-- The spec's example event `A` spanning `[100, 200)` on channel "5". -/
def exampleRow : Row :=
  { channel_id := "5", start_utc := 100, end_utc := 200,
    title := some "A", path := none, channel_name := none, tag := none }

/-- A later row on channel "5". -/
def laterRow : Row :=
  { channel_id := "5", start_utc := 300, end_utc := 400,
    title := some "B", path := none, channel_name := none, tag := none }

/-- The two-row store of the now/next example. -/
def exampleRows : List Row := [exampleRow, laterRow]

/-- Six rows on channel "1", all starting after `now = 1000`. -/
def c4conn : Conn :=
  { rows := [
      { channel_id := "1", start_utc := 2000, end_utc := 2100,
        title := none, path := none, channel_name := none, tag := none },
      { channel_id := "1", start_utc := 3000, end_utc := 3100,
        title := none, path := none, channel_name := none, tag := none },
      { channel_id := "1", start_utc := 4000, end_utc := 4100,
        title := none, path := none, channel_name := none, tag := none },
      { channel_id := "1", start_utc := 5000, end_utc := 5100,
        title := none, path := none, channel_name := none, tag := none },
      { channel_id := "1", start_utc := 6000, end_utc := 6100,
        title := none, path := none, channel_name := none, tag := none },
      { channel_id := "1", start_utc := 7000, end_utc := 7100,
        title := none, path := none, channel_name := none, tag := none } ]
    hasTitle := false
    hasPath := false
    hasChannelName := false
    fail := false }

/-
Claim C2.
-/

/-- C2 counterexample: the claim says no exception ever propagates out of
`load_channels_and_events`, but on a store whose queries raise (`failConn`,
e.g. a present database file with a missing `schedule_events` table) the
function itself — whose body has `try/finally` but no `except` — lets the
error escape to its caller. -/
theorem C2_counterexample :
    load_channels_and_events true failConn 0 = Except.error ⟨"query failed"⟩ := rfl

/-- C2 (amended): `resolve_now_path_and_offset` converts every failure of
its body to `None`, but `load_channels_and_events` propagates query
failures to its caller; the conversion to "no data" for the guide happens
one level up, in `_enter_guide_mode`, which catches the error and falls
back to the empty snapshot. -/
theorem C2_amended_thm (dbE : Bool) (c : Conn) (now : Int) (ch : String) (e : SqlErr)
    (c2 : Conn) (now2 : Int)
    (hbody : resolve_body dbE c now ch = Except.error e)
    (hfail : c2.fail = true) :
    resolve_now_path_and_offset dbE c now ch = none
    ∧ load_channels_and_events true c2 now2 = Except.error ⟨"query failed"⟩
    ∧ (enter_guide_mode true c2 now2).guide_rows = [] := by
  have hload : load_channels_and_events true c2 now2 = Except.error ⟨"query failed"⟩ := by
    unfold load_channels_and_events
    rw [if_neg (by simp), if_pos hfail]
  refine ⟨?_, hload, ?_⟩
  · unfold resolve_now_path_and_offset
    rw [hbody]
  · show (match load_channels_and_events true c2 now2 with
      | Except.ok rs => rs
      | Except.error _ => []) = []
    rw [hload]

/-- C2 witness: the amended theorem applied to `failConn`. -/
theorem C2_witness :
    (resolve_body true failConn 0 "1" = Except.error ⟨"query failed"⟩
     ∧ failConn.fail = true)
    ∧ (resolve_now_path_and_offset true failConn 0 "1" = none
       ∧ load_channels_and_events true failConn 5 = Except.error ⟨"query failed"⟩
       ∧ (enter_guide_mode true failConn 5).guide_rows = []) :=
  ⟨⟨rfl, rfl⟩, C2_amended_thm true failConn 0 "1" ⟨"query failed"⟩ failConn 5 rfl rfl⟩

/-
Claim C3.
-/

/-- C3 counterexample: the claim says every consumer-visible event has its
end time corrected to `end > start`, including the now/next rows of the
overlay's `schedule_now_next`; but for the store row `start = end = 500` at
`now = 400` the next row is exposed raw, with `end ≤ start` uncorrected. -/
theorem C3_counterexample :
    (schedule_now_next [badRow] "7" 400).2 = some badRow
    ∧ decide (badRow.start_utc < badRow.end_utc) = false :=
  ⟨rfl, rfl⟩

/-- C3 (amended): the guide snapshot built by `load_channels_and_events`
clamps, so every exposed event satisfies `end > start`; the overlay's
`schedule_now_next` performs no correction — its now row happens to satisfy
`end > start` because the query demands `start ≤ now < end`, but its next
row is the raw store row, which may violate `end > start`. -/
theorem C3_amended_thm (dbE : Bool) (c : Conn) (now : Int) (chans : List GChannel)
    (ch : GChannel) (e : GEvent) (rows : List Row) (cid : String) (now2 : Int)
    (rNow rNext : Row)
    (hload : load_channels_and_events dbE c now = Except.ok chans)
    (hch : ch ∈ chans) (he : e ∈ ch.events)
    (hnow : (schedule_now_next rows cid now2).1 = some rNow)
    (hnext : (schedule_now_next rows cid now2).2 = some rNext) :
    e.start_ < e.end_ ∧ rNow.start_utc < rNow.end_utc ∧ rNext ∈ rows := by
  refine ⟨?_, ?_, ?_⟩
  · unfold load_channels_and_events at hload
    by_cases hdb : dbE = false
    · rw [if_pos hdb] at hload
      injection hload with h2
      subst h2
      exact absurd hch (List.not_mem_nil _)
    · rw [if_neg hdb] at hload
      by_cases hf : c.fail = true
      · rw [if_pos hf] at hload
        exact Except.noConfusion hload
      · rw [if_neg hf] at hload
        injection hload with h2
        subst h2
        rcases List.mem_map.mp hch with ⟨chid, _, rfl⟩
        exact (mkEvents_props _ _ _ _ _ _ he).1
  · unfold schedule_now_next currentRowQuery at hnow
    have hmem := argmaxStart_mem hnow
    have hcond := (List.mem_filter.mp hmem).2
    simp only [Bool.and_eq_true, beq_iff_eq, decide_eq_true_eq] at hcond
    omega
  · unfold schedule_now_next nextRowQuery at hnext
    exact (List.mem_filter.mp (argminStart_mem hnext)).1

/-- C3 witness: the amended theorem at the demo snapshot and the spec's
example rows. -/
theorem C3_witness :
    (load_channels_and_events true demoConn 1000 = Except.ok demoChans
     ∧ demoCh1 ∈ demoChans ∧ demoEv ∈ demoCh1.events
     ∧ (schedule_now_next exampleRows "5" 150).1 = some exampleRow
     ∧ (schedule_now_next exampleRows "5" 150).2 = some laterRow)
    ∧ (demoEv.start_ < demoEv.end_
       ∧ exampleRow.start_utc < exampleRow.end_utc
       ∧ laterRow ∈ exampleRows) :=
  ⟨⟨rfl, by decide, by decide, rfl, rfl⟩,
   C3_amended_thm true demoConn 1000 demoChans demoCh1 demoEv exampleRows "5" 150
     exampleRow laterRow rfl (by decide) (by decide) rfl rfl⟩

/-
Claim C4.
-/

/-- C4 counterexample: the claim caps a channel's event list at the current
event plus at most the next five upcoming events; `c4conn` has six rows all
starting strictly after `now = 1000`, so no event is current (greatest
`start ≤ now` with `end > now`), yet the snapshot exposes all six upcoming
events — one more than the claimed cap allows. -/
theorem C4_counterexample :
    (load_channels_and_events true c4conn 1000).map (fun chans =>
      chans.map (fun ch =>
        (ch.id, ch.events.length, ch.events.all (fun e => decide (1000 < e.start_)))))
      = Except.ok [("1", 6, true)] := rfl

/-- C4 (amended): channels are listed ascending by the numeric value of
their identifier and events within a channel ascending by start time, but
the cap is simply the first six store rows with `end > now` (at most six
events, every one satisfying `end > now`); only when exactly one of them is
current does this equal "the current event plus the next five". -/
theorem C4_amended_thm (dbE : Bool) (c : Conn) (now : Int) (chans : List GChannel)
    (ch : GChannel) (e : GEvent)
    (hload : load_channels_and_events dbE c now = Except.ok chans)
    (hch : ch ∈ chans) (he : e ∈ ch.events) :
    chans.Chain' (fun a b => castInt a.id ≤ castInt b.id)
    ∧ ch.events.Chain' (fun a b => a.start_ ≤ b.start_)
    ∧ ch.events.length ≤ 6
    ∧ now < e.end_ := by
  unfold load_channels_and_events at hload
  by_cases hdb : dbE = false
  · rw [if_pos hdb] at hload
    injection hload with h2
    subst h2
    exact absurd hch (List.not_mem_nil _)
  · rw [if_neg hdb] at hload
    by_cases hf : c.fail = true
    · rw [if_pos hf] at hload
      exact Except.noConfusion hload
    · rw [if_neg hf] at hload
      injection hload with h2
      subst h2
      rcases List.mem_map.mp hch with ⟨chid, _, rfl⟩
      refine ⟨?_, mkEvents_chain _ _ _ _ _, mkEvents_len _ _ _ _ _,
        (mkEvents_props _ _ _ _ _ _ he).2⟩
      apply (List.chain'_map _).mpr
      exact (pairwise_sortByKey castInt _).chain'

/-- C4 witness: the amended theorem at the demo store. -/
theorem C4_witness :
    (load_channels_and_events true demoConn 1000 = Except.ok demoChans
     ∧ demoCh1 ∈ demoChans ∧ demoEv ∈ demoCh1.events)
    ∧ (demoChans.Chain' (fun a b => castInt a.id ≤ castInt b.id)
       ∧ demoCh1.events.Chain' (fun a b => a.start_ ≤ b.start_)
       ∧ demoCh1.events.length ≤ 6
       ∧ (1000 : Int) < demoEv.end_) :=
  ⟨⟨rfl, by decide, by decide⟩,
   C4_amended_thm true demoConn 1000 demoChans demoCh1 demoEv rfl (by decide) (by decide)⟩

/-
Guide-browser invariants and navigation lemmas.
-/

/-- The cursor invariant of the guide browser: guide mode, a positive
viewport height, a row cursor inside the snapshot, a nonnegative column
cursor, and a viewport window containing the row cursor. -/
def GuideInv (s : GuideState) : Prop :=
  s.mode = "guide"
  ∧ 1 ≤ s.g_max_visible
  ∧ 0 ≤ s.g_sel_row ∧ s.g_sel_row < (s.guide_rows.length : Int)
  ∧ 0 ≤ s.g_sel_col
  ∧ 0 ≤ s.g_row_offset ∧ s.g_row_offset ≤ s.g_sel_row
  ∧ s.g_sel_row < s.g_row_offset + s.g_max_visible

theorem reanchor_row_ok (s1 : GuideState) (h0 : 0 ≤ s1.g_sel_row)
    (h1 : s1.g_sel_row < (s1.guide_rows.length : Int)) :
    reanchor_row s1 = Except.ok s1 := by
  obtain ⟨a, ha⟩ := pyIdx_ok s1.guide_rows s1.g_sel_row h0 h1
  unfold reanchor_row
  cases hcid : guide_current_channel_id s1 with
  | none => rfl
  | some ch =>
    dsimp only
    by_cases hch : ch = ""
    · rw [if_pos hch]
    · rw [if_neg hch, ha]

theorem reanchor_row_eq (s1 s2 : GuideState) (h : reanchor_row s1 = Except.ok s2) :
    s2 = s1 := by
  unfold reanchor_row at h
  cases hcid : guide_current_channel_id s1 with
  | none =>
    rw [hcid] at h
    injection h with h2
    exact h2.symm
  | some ch =>
    rw [hcid] at h
    dsimp only at h
    by_cases hch : ch = ""
    · rw [if_pos hch] at h
      injection h with h2
      exact h2.symm
    · rw [if_neg hch] at h
      cases hidx : pyIdx s1.guide_rows s1.g_sel_row with
      | error e =>
        rw [hidx] at h
        exact Except.noConfusion h
      | ok r =>
        rw [hidx] at h
        injection h with h2
        exact h2.symm

theorem applyGuideOp_inv (op : GuideOp) (s : GuideState) (h : GuideInv s) :
    ∃ s', applyGuideOp op s = Except.ok s' ∧ GuideInv s' ∧ s'.guide_rows = s.guide_rows := by
  obtain ⟨hm, hv, hr0, hrl, hc0, ho0, hor, hrv⟩ := h
  have hne : ¬ s.guide_rows = [] := by
    intro hnil
    rw [hnil] at hrl
    simp at hrl
    omega
  cases op with
  | left =>
    refine ⟨{ s with g_sel_col := max 0 (s.g_sel_col - 1) }, ?_, ?_, rfl⟩
    · show guide_left s = _
      unfold guide_left
      rw [if_neg (by simp [hm])]
    · unfold GuideInv
      dsimp only
      exact ⟨hm, hv, hr0, hrl, by omega, ho0, hor, hrv⟩
  | right =>
    obtain ⟨row, hrow⟩ := pyIdx_ok s.guide_rows s.g_sel_row hr0 hrl
    refine ⟨{ s with g_sel_col := min (max 0 ((row.events.length : Int) - 1)) (s.g_sel_col + 1) }, ?_, ?_, rfl⟩
    · show guide_right s = _
      unfold guide_right
      rw [if_neg (by simp [hm]), if_neg hne, hrow]
    · unfold GuideInv
      dsimp only
      exact ⟨hm, hv, hr0, hrl, by omega, ho0, hor, hrv⟩
  | pageUp =>
    refine ⟨{ s with
        g_sel_row := max 0 (s.g_sel_row - 1)
        g_row_offset := (if max 0 (s.g_sel_row - 1) < s.g_row_offset then
          max 0 (s.g_sel_row - 1) else s.g_row_offset) }, ?_, ?_, rfl⟩
    · show guide_page_up s = _
      unfold guide_page_up
      rw [if_neg (by simp [hm]), if_neg hne]
      apply reanchor_row_ok <;> dsimp only <;> omega
    · unfold GuideInv
      dsimp only
      split_ifs with hlt <;>
        exact ⟨hm, hv, by omega, by omega, hc0, by omega, by omega, by omega⟩
  | pageDown =>
    refine ⟨{ s with
        g_sel_row := min ((s.guide_rows.length : Int) - 1) (s.g_sel_row + 1)
        g_row_offset := (if s.g_row_offset + s.g_max_visible ≤
              min ((s.guide_rows.length : Int) - 1) (s.g_sel_row + 1) then
            min ((s.guide_rows.length : Int) - 1) (s.g_sel_row + 1) - s.g_max_visible + 1
          else s.g_row_offset) }, ?_, ?_, rfl⟩
    · show guide_page_down s = _
      unfold guide_page_down
      rw [if_neg (by simp [hm]), if_neg hne]
      apply reanchor_row_ok <;> dsimp only <;> omega
    · unfold GuideInv
      dsimp only
      split_ifs with hlt <;>
        exact ⟨hm, hv, by omega, by omega, hc0, by omega, by omega, by omega⟩

theorem runGuideOps_inv (ops : List GuideOp) (s : GuideState) (h : GuideInv s) :
    ∃ s', runGuideOps ops s = Except.ok s' ∧ GuideInv s' ∧ s'.guide_rows = s.guide_rows := by
  induction ops generalizing s with
  | nil => exact ⟨s, rfl, h, rfl⟩
  | cons op ops ih =>
    obtain ⟨s1, hs1, hinv1, hrows1⟩ := applyGuideOp_inv op s h
    obtain ⟨s2, hs2, hinv2, hrows2⟩ := ih s1 hinv1
    refine ⟨s2, ?_, hinv2, hrows2.trans hrows1⟩
    rw [runGuideOps, hs1]
    exact hs2

theorem enter_guide_inv (dbE : Bool) (c : Conn) (now : Int)
    (h : (enter_guide_mode dbE c now).guide_rows ≠ []) :
    GuideInv (enter_guide_mode dbE c now) := by
  have hlen : 0 < (enter_guide_mode dbE c now).guide_rows.length := List.length_pos.mpr h
  unfold GuideInv
  refine ⟨rfl, ?_, ?_, ?_, ?_, ?_, ?_, ?_⟩
  · show (1 : Int) ≤ 8
    norm_num
  · show (0 : Int) ≤ 0
    norm_num
  · show (0 : Int) < ((enter_guide_mode dbE c now).guide_rows.length : Int)
    omega
  · show (0 : Int) ≤ 0
    norm_num
  · show (0 : Int) ≤ 0
    norm_num
  · show (0 : Int) ≤ 0
    norm_num
  · show (0 : Int) < 0 + 8
    norm_num

/-
Claim C1.
-/

/-- C1 counterexample: entering the guide on the demo store and running
`guide_right, guide_right, guide_page_down` lands on row 1 with the column
cursor still at 2, although row 1 has a single event — the row change did
not re-clamp the column to `len(newRow.events) - 1 = 0`, so the claimed
bound `column ≤ len(currentRow.events) - 1` fails after the row change. -/
theorem C1_counterexample :
    (runGuideOps [GuideOp.right, GuideOp.right, GuideOp.pageDown]
        (enter_guide_mode true demoConn 1000)).map
      (fun s => (s.g_sel_row, s.g_sel_col)) = Except.ok (1, 2)
    ∧ ((enter_guide_mode true demoConn 1000).guide_rows.map
        (fun ch => ch.events.length)) = [3, 1] :=
  ⟨rfl, rfl⟩

/-- C1 (amended): on a row change via `guide_page_up` / `guide_page_down`
the column cursor persists exactly — it is never re-clamped by the row
change, and may therefore exceed `len(newRow.events) - 1` until a later
horizontal move clamps it. -/
theorem C1_amended_thm (s s' : GuideState)
    (h : guide_page_up s = Except.ok s' ∨ guide_page_down s = Except.ok s') :
    s'.g_sel_col = s.g_sel_col := by
  rcases h with h | h
  · unfold guide_page_up at h
    split at h
    · injection h with h2
      rw [← h2]
    · split at h
      · injection h with h2
        rw [← h2]
      · rw [reanchor_row_eq _ _ h]
  · unfold guide_page_down at h
    split at h
    · injection h with h2
      rw [← h2]
    · split at h
      · injection h with h2
        rw [← h2]
      · rw [reanchor_row_eq _ _ h]

/-- C1 witness: one concrete `guide_page_down` row change on the demo
snapshot, with the column unchanged. -/
theorem C1_amended_witness :
    guide_page_down (enter_guide_mode true demoConn 1000)
      = Except.ok { mode := "guide", guide_rows := demoChans, g_sel_row := 1,
                    g_sel_col := 0, g_row_offset := 0, g_max_visible := 8 }
    ∧ ({ mode := "guide", guide_rows := demoChans, g_sel_row := 1, g_sel_col := 0,
         g_row_offset := 0, g_max_visible := 8 } : GuideState).g_sel_col
        = (enter_guide_mode true demoConn 1000).g_sel_col :=
  ⟨rfl,
   C1_amended_thm (enter_guide_mode true demoConn 1000)
     { mode := "guide", guide_rows := demoChans, g_sel_row := 1, g_sel_col := 0,
       g_row_offset := 0, g_max_visible := 8 } (Or.inr rfl)⟩

/-
Claim C9.
-/

/-- C9: entering the guide always resets the cursor triple to `(0,0,0)`;
and from any guide state with an empty snapshot and column 0 — in
particular the state `_enter_guide_mode` produces for an empty snapshot —
every sequence of guide navigation commands returns without error and
leaves the state exactly unchanged. -/
theorem C9_thm (dbE : Bool) (c : Conn) (now : Int) (ops : List GuideOp) (s : GuideState)
    (hmode : s.mode = "guide") (hrows : s.guide_rows = []) (hcol : s.g_sel_col = 0) :
    (enter_guide_mode dbE c now).g_sel_row = 0
    ∧ (enter_guide_mode dbE c now).g_sel_col = 0
    ∧ (enter_guide_mode dbE c now).g_row_offset = 0
    ∧ runGuideOps ops s = Except.ok s := by
  refine ⟨rfl, rfl, rfl, ?_⟩
  have hstep : ∀ op, applyGuideOp op s = Except.ok s := by
    intro op
    obtain ⟨m, rows, r, c', o, v⟩ := s
    dsimp only at hmode hrows hcol
    subst hmode
    subst hrows
    subst hcol
    cases op with
    | left =>
      show guide_left _ = _
      unfold guide_left
      rw [if_neg (by simp)]
      have hmax : max 0 ((0 : Int) - 1) = 0 := by omega
      rw [hmax]
    | right =>
      show guide_right _ = _
      unfold guide_right
      rw [if_neg (by simp), if_pos rfl]
    | pageUp =>
      show guide_page_up _ = _
      unfold guide_page_up
      rw [if_neg (by simp), if_pos rfl]
    | pageDown =>
      show guide_page_down _ = _
      unfold guide_page_down
      rw [if_neg (by simp), if_pos rfl]
  induction ops with
  | nil => rfl
  | cons op ops ih =>
    rw [runGuideOps, hstep op]
    exact ih

/-- C9 witness: entering with `SCHED_DB` absent yields the empty snapshot;
all four navigation commands then leave the entry state untouched. -/
theorem C9_witness :
    ((enter_guide_mode false emptyConn 0).mode = "guide"
     ∧ (enter_guide_mode false emptyConn 0).guide_rows = []
     ∧ (enter_guide_mode false emptyConn 0).g_sel_col = 0)
    ∧ ((enter_guide_mode false emptyConn 0).g_sel_row = 0
       ∧ (enter_guide_mode false emptyConn 0).g_sel_col = 0
       ∧ (enter_guide_mode false emptyConn 0).g_row_offset = 0
       ∧ runGuideOps [GuideOp.left, GuideOp.right, GuideOp.pageUp, GuideOp.pageDown]
           (enter_guide_mode false emptyConn 0)
           = Except.ok (enter_guide_mode false emptyConn 0)) :=
  ⟨⟨rfl, rfl, rfl⟩,
   C9_thm false emptyConn 0 [GuideOp.left, GuideOp.right, GuideOp.pageUp, GuideOp.pageDown]
     (enter_guide_mode false emptyConn 0) rfl rfl rfl⟩

/-
Claim C10.
-/

/-- C10: after entering the guide on a non-empty snapshot, every sequence
of guide navigation commands succeeds and preserves the cursor invariant:
`0 ≤ selectedRow < rowCount`, `0 ≤ column`, `0 ≤ offset ≤ selectedRow <
offset + maxVisible`, over the unchanged frozen snapshot. -/
theorem C10_thm (dbE : Bool) (c : Conn) (now : Int) (ops : List GuideOp)
    (h : (enter_guide_mode dbE c now).guide_rows ≠ []) :
    match runGuideOps ops (enter_guide_mode dbE c now) with
    | Except.ok s' => GuideInv s'
        ∧ s'.guide_rows = (enter_guide_mode dbE c now).guide_rows
    | Except.error _ => False := by
  obtain ⟨s', hs', hinv, hrows⟩ :=
    runGuideOps_inv ops _ (enter_guide_inv dbE c now h)
  rw [hs']
  exact ⟨hinv, hrows⟩

/-- C10 witness: the invariant after a concrete command sequence on the
demo snapshot. -/
theorem C10_witness :
    (enter_guide_mode true demoConn 1000).guide_rows ≠ []
    ∧ (match runGuideOps [GuideOp.pageDown, GuideOp.right, GuideOp.pageUp]
          (enter_guide_mode true demoConn 1000) with
       | Except.ok s' => GuideInv s'
           ∧ s'.guide_rows = (enter_guide_mode true demoConn 1000).guide_rows
       | Except.error _ => False) :=
  ⟨by decide,
   C10_thm true demoConn 1000 [GuideOp.pageDown, GuideOp.right, GuideOp.pageUp] (by decide)⟩

/-
Root-menu navigation lemmas.
-/

theorem nav_down_eq (w : RootWin) (hm : w.mode = "root") :
    nav_down w = { w with sel := (w.sel + 1) % (w.items.length : Int)
                          sel_last := (w.sel + 1) % (w.items.length : Int) } := by
  unfold nav_down
  rw [if_neg (by simp [hm])]

theorem nav_up_eq (w : RootWin) (hm : w.mode = "root") :
    nav_up w = { w with sel := (w.sel - 1) % (w.items.length : Int)
                        sel_last := (w.sel - 1) % (w.items.length : Int) } := by
  unfold nav_up
  rw [if_neg (by simp [hm])]

theorem nav_down_iter (n : Nat) (w : RootWin) (hm : w.mode = "root")
    (hsl : w.sel_last = w.sel) (h0 : 0 ≤ w.sel) (h1 : w.sel < (w.items.length : Int)) :
    (nav_down^[n] w).sel = (w.sel + n) % (w.items.length : Int)
    ∧ (nav_down^[n] w).sel_last = (nav_down^[n] w).sel
    ∧ (nav_down^[n] w).items = w.items := by
  induction n generalizing w with
  | zero =>
    simp only [Function.iterate_zero, id_eq]
    refine ⟨?_, hsl, trivial⟩
    have hz : w.sel + ((0 : Nat) : Int) = w.sel := by omega
    rw [hz, Int.emod_eq_of_lt h0 h1]
  | succ n ih =>
    rw [Function.iterate_succ_apply]
    have hlen : (0 : Int) < (w.items.length : Int) := by omega
    have heq := nav_down_eq w hm
    have hmode1 : (nav_down w).mode = "root" := by rw [heq]; exact hm
    have hitems1 : (nav_down w).items = w.items := by rw [heq]
    have hsel1 : (nav_down w).sel = (w.sel + 1) % (w.items.length : Int) := by rw [heq]
    have hsl1 : (nav_down w).sel_last = (nav_down w).sel := by rw [heq]
    have h01 : 0 ≤ (nav_down w).sel := by
      rw [hsel1]
      exact Int.emod_nonneg _ (by omega)
    have h11 : (nav_down w).sel < ((nav_down w).items.length : Int) := by
      rw [hsel1, hitems1]
      exact Int.emod_lt_of_pos _ hlen
    obtain ⟨ha, hb, hc⟩ := ih (nav_down w) hmode1 hsl1 h01 h11
    refine ⟨?_, hb, by rw [hc, hitems1]⟩
    rw [ha, hitems1, hsel1, Int.emod_add_emod]
    congr 1
    push_cast
    ring

theorem nav_up_iter (n : Nat) (w : RootWin) (hm : w.mode = "root")
    (hsl : w.sel_last = w.sel) (h0 : 0 ≤ w.sel) (h1 : w.sel < (w.items.length : Int)) :
    (nav_up^[n] w).sel = (w.sel - n) % (w.items.length : Int)
    ∧ (nav_up^[n] w).sel_last = (nav_up^[n] w).sel
    ∧ (nav_up^[n] w).items = w.items := by
  induction n generalizing w with
  | zero =>
    simp only [Function.iterate_zero, id_eq]
    refine ⟨?_, hsl, trivial⟩
    have hz : w.sel - ((0 : Nat) : Int) = w.sel := by omega
    rw [hz, Int.emod_eq_of_lt h0 h1]
  | succ n ih =>
    rw [Function.iterate_succ_apply]
    have hlen : (0 : Int) < (w.items.length : Int) := by omega
    have heq := nav_up_eq w hm
    have hmode1 : (nav_up w).mode = "root" := by rw [heq]; exact hm
    have hitems1 : (nav_up w).items = w.items := by rw [heq]
    have hsel1 : (nav_up w).sel = (w.sel - 1) % (w.items.length : Int) := by rw [heq]
    have hsl1 : (nav_up w).sel_last = (nav_up w).sel := by rw [heq]
    have h01 : 0 ≤ (nav_up w).sel := by
      rw [hsel1]
      exact Int.emod_nonneg _ (by omega)
    have h11 : (nav_up w).sel < ((nav_up w).items.length : Int) := by
      rw [hsel1, hitems1]
      exact Int.emod_lt_of_pos _ hlen
    obtain ⟨ha, hb, hc⟩ := ih (nav_up w) hmode1 hsl1 h01 h11
    refine ⟨?_, hb, by rw [hc, hitems1]⟩
    rw [ha, hitems1, hsel1, sub_eq_add_neg, Int.emod_add_emod]
    congr 1
    push_cast
    ring

/-- The freshly constructed `MenuWindow` on its root-menu facet:
visible after `open_menu`, root mode, cursor 0, `MENU_ITEMS`. -/
def rootInit : RootWin :=
  { visible := true
    mode := "root"
    sel := 0
    sel_last := 0
    items := ["Live TV", "TV Guide", "Planner", "OnDemand"] }

/-
Claim C5.
-/

/-- C5: in a visible root-mode state the remote `/menu/nav/pageup` and
`/menu/nav/pagedown` commands are exactly `nav_up` / `nav_down` — a ±1 step
modulo the item count — while the raw `Key_PageUp` / `Key_PageDown`
handlers step the cursor by ±2 modulo the item count. -/
theorem C5_thm (w : RootWin) (hv : w.visible = true) (hm : w.mode = "root") :
    do_post_nav_pageup w = nav_up w
    ∧ do_post_nav_pagedown w = nav_down w
    ∧ (nav_up w).sel = (w.sel - 1) % (w.items.length : Int)
    ∧ (nav_down w).sel = (w.sel + 1) % (w.items.length : Int)
    ∧ (key_press_pageup w).sel = (w.sel - 2) % (w.items.length : Int)
    ∧ (key_press_pagedown w).sel = (w.sel + 2) % (w.items.length : Int) := by
  have hg : ¬ w.mode = "guide" := by rw [hm]; simp
  refine ⟨?_, ?_, ?_, ?_, ?_, ?_⟩
  · unfold do_post_nav_pageup
    rw [if_neg (by simp [hv]), if_neg hg]
  · unfold do_post_nav_pagedown
    rw [if_neg (by simp [hv]), if_neg hg]
  · rw [nav_up_eq w hm]
  · rw [nav_down_eq w hm]
  · unfold key_press_pageup
    rw [if_neg (by simp [hv]), if_pos hm]
  · unfold key_press_pagedown
    rw [if_neg (by simp [hv]), if_pos hm]

/-- C5 witness: the fresh window. -/
theorem C5_witness :
    (rootInit.visible = true ∧ rootInit.mode = "root")
    ∧ (do_post_nav_pageup rootInit = nav_up rootInit
       ∧ do_post_nav_pagedown rootInit = nav_down rootInit
       ∧ (nav_up rootInit).sel = (rootInit.sel - 1) % (rootInit.items.length : Int)
       ∧ (nav_down rootInit).sel = (rootInit.sel + 1) % (rootInit.items.length : Int)
       ∧ (key_press_pageup rootInit).sel = (rootInit.sel - 2) % (rootInit.items.length : Int)
       ∧ (key_press_pagedown rootInit).sel
           = (rootInit.sel + 2) % (rootInit.items.length : Int)) :=
  ⟨⟨rfl, rfl⟩, C5_thm rootInit rfl rfl⟩

/-
Claim C8.
-/

/-- C8: from root index 0 (with the last-selected index also 0, as at
construction), `n` presses of `nav.down` leave the cursor at
`n mod itemCount` and `n` presses of `nav.up` leave it at
`(-n) mod itemCount`, both persisted as the last-selected index. -/
theorem C8_thm (n : Nat) (w : RootWin) (hm : w.mode = "root") (hs : w.sel = 0)
    (hsl : w.sel_last = 0) (hpos : 0 < w.items.length) :
    ((nav_down^[n] w).sel = (n : Int) % (w.items.length : Int)
     ∧ (nav_down^[n] w).sel_last = (n : Int) % (w.items.length : Int))
    ∧ ((nav_up^[n] w).sel = (-(n : Int)) % (w.items.length : Int)
       ∧ (nav_up^[n] w).sel_last = (-(n : Int)) % (w.items.length : Int)) := by
  have h0 : 0 ≤ w.sel := by omega
  have h1 : w.sel < (w.items.length : Int) := by omega
  have hsl' : w.sel_last = w.sel := by omega
  obtain ⟨ha, hb, _⟩ := nav_down_iter n w hm hsl' h0 h1
  obtain ⟨ha2, hb2, _⟩ := nav_up_iter n w hm hsl' h0 h1
  have hdn : (w.sel + (n : Int)) % (w.items.length : Int)
      = (n : Int) % (w.items.length : Int) := by rw [hs, zero_add]
  have hup : (w.sel - (n : Int)) % (w.items.length : Int)
      = (-(n : Int)) % (w.items.length : Int) := by rw [hs, zero_sub]
  exact ⟨⟨ha.trans hdn, (hb.trans ha).trans hdn⟩,
         ⟨ha2.trans hup, (hb2.trans ha2).trans hup⟩⟩

/-- C8 witness: six presses each way on the fresh four-item window. -/
theorem C8_witness :
    (rootInit.mode = "root" ∧ rootInit.sel = 0 ∧ rootInit.sel_last = 0
     ∧ 0 < rootInit.items.length)
    ∧ (((nav_down^[6] rootInit).sel = (6 : Int) % (rootInit.items.length : Int)
        ∧ (nav_down^[6] rootInit).sel_last = (6 : Int) % (rootInit.items.length : Int))
       ∧ ((nav_up^[6] rootInit).sel = (-(6 : Int)) % (rootInit.items.length : Int)
          ∧ (nav_up^[6] rootInit).sel_last = (-(6 : Int)) % (rootInit.items.length : Int))) :=
  ⟨⟨rfl, rfl, rfl, by decide⟩, C8_thm 6 rootInit rfl rfl rfl (by decide)⟩

/-
Process-handle lemmas.
-/

/-- The standalone state of one process handle: either idle with no live
process, or owning the single live process of its table. -/
def handleOwned (st : Option Nat × ProcTable) : Prop :=
  (st.1 = none ∧ st.2.aliveList = []) ∨ (∃ p, st.1 = some p ∧ st.2.aliveList = [p])

/-- Same, for the audio manager. -/
def audioOwned (st : MenuAudio × ProcTable) : Prop :=
  (st.1.proc = none ∧ st.2.aliveList = [])
  ∨ (∃ p, st.1.proc = some p ∧ st.2.aliveList = [p])

theorem kill_single (t : ProcTable) (p : Nat) (h : t.aliveList = [p]) :
    (kill t p).aliveList = [] := by
  unfold kill
  dsimp only
  rw [h]
  simp [List.filter]

theorem stop_preview_owned (st : Option Nat × ProcTable) (h : handleOwned st) :
    (stop_preview st.1 st.2).1 = none ∧ (stop_preview st.1 st.2).2.aliveList = [] := by
  rcases h with ⟨h1, h2⟩ | ⟨p, h1, h2⟩
  · rw [h1]
    exact ⟨rfl, h2⟩
  · rw [h1]
    unfold stop_preview
    dsimp only
    refine ⟨rfl, ?_⟩
    have halive : st.2.isAlive p := by
      unfold ProcTable.isAlive
      rw [h2]
      exact List.mem_singleton.mpr rfl
    rw [if_pos halive]
    exact kill_single st.2 p h2

theorem start_preview_owned (st : Option Nat × ProcTable) (path : String) (off : Int)
    (ok : Bool) (h : handleOwned st) :
    handleOwned (start_preview st.1 st.2 path off ok) := by
  obtain ⟨hn, ha⟩ := stop_preview_owned st h
  unfold start_preview
  by_cases hok : ok = true
  · rw [if_pos hok]
    right
    refine ⟨(stop_preview st.1 st.2).2.nextPid, rfl, ?_⟩
    show (stop_preview st.1 st.2).2.nextPid :: (stop_preview st.1 st.2).2.aliveList = _
    rw [ha]
  · rw [if_neg hok]
    left
    exact ⟨rfl, ha⟩

theorem runPrevOps_owned (ops : List PrevOp) (st : Option Nat × ProcTable)
    (h : handleOwned st) : handleOwned (runPrevOps ops st) := by
  induction ops generalizing st with
  | nil => exact h
  | cons op ops ih =>
    rw [runPrevOps]
    apply ih
    cases op with
    | start p off ok => exact start_preview_owned st p off ok h
    | stop =>
      obtain ⟨hn, ha⟩ := stop_preview_owned st h
      exact Or.inl ⟨hn, ha⟩

theorem menu_audio_stop_owned (st : MenuAudio × ProcTable) (h : audioOwned st) :
    (menu_audio_stop st.1 st.2).1.proc = none
    ∧ (menu_audio_stop st.1 st.2).2.aliveList = [] := by
  rcases h with ⟨h1, h2⟩ | ⟨p, h1, h2⟩
  · unfold menu_audio_stop
    rw [h1]
    exact ⟨rfl, h2⟩
  · unfold menu_audio_stop
    rw [h1]
    dsimp only
    refine ⟨rfl, ?_⟩
    have halive : st.2.isAlive p := by
      unfold ProcTable.isAlive
      rw [h2]
      exact List.mem_singleton.mpr rfl
    rw [if_pos halive]
    exact kill_single st.2 p h2

theorem menu_audio_start_owned (st : MenuAudio × ProcTable) (pe ok : Bool)
    (h : audioOwned st) : audioOwned (menu_audio_start st.1 st.2 pe ok) := by
  obtain ⟨hn, ha⟩ := menu_audio_stop_owned st h
  unfold menu_audio_start
  by_cases hpe : pe = false
  · rw [if_pos hpe]
    exact h
  · rw [if_neg hpe]
    by_cases hok : ok = true
    · rw [if_pos hok]
      right
      refine ⟨(spawn (menu_audio_stop st.1 st.2).2 st.1.path 0).1, rfl, ?_⟩
      show (menu_audio_stop st.1 st.2).2.nextPid :: (menu_audio_stop st.1 st.2).2.aliveList = _
      rw [ha]
      rfl
    · rw [if_neg hok]
      left
      exact ⟨rfl, ha⟩

theorem runAudOps_owned (ops : List AudOp) (st : MenuAudio × ProcTable)
    (h : audioOwned st) : audioOwned (runAudOps ops st) := by
  induction ops generalizing st with
  | nil => exact h
  | cons op ops ih =>
    rw [runAudOps]
    apply ih
    cases op with
    | start pe ok => exact menu_audio_start_owned st pe ok h
    | stop =>
      obtain ⟨hn, ha⟩ := menu_audio_stop_owned st h
      exact Or.inl ⟨hn, ha⟩

theorem handleOwned_len (st : Option Nat × ProcTable) (h : handleOwned st) :
    st.2.aliveList.length ≤ 1 := by
  rcases h with ⟨_, ha⟩ | ⟨p, _, ha⟩ <;> rw [ha] <;> simp

theorem audioOwned_len (st : MenuAudio × ProcTable) (h : audioOwned st) :
    st.2.aliveList.length ≤ 1 := by
  rcases h with ⟨_, ha⟩ | ⟨p, _, ha⟩ <;> rw [ha] <;> simp

theorem isAlive_kill_self (t : ProcTable) (p : Nat) : ¬ (kill t p).isAlive p := by
  unfold kill ProcTable.isAlive
  dsimp only
  intro hmem
  have := (List.mem_filter.mp hmem).2
  simp at this

theorem isAlive_kill_mono (t : ProcTable) (p q : Nat) (h : ¬ t.isAlive p) :
    ¬ (kill t q).isAlive p := by
  unfold kill ProcTable.isAlive at *
  dsimp only
  intro hmem
  exact h ((List.mem_filter.mp hmem).1)

theorem stop_preview_kills (hd : Option Nat) (t : ProcTable) (p : Nat)
    (hp : hd = some p) : ¬ (stop_preview hd t).2.isAlive p := by
  subst hp
  unfold stop_preview
  dsimp only
  by_cases halive : t.isAlive p
  · rw [if_pos halive]
    exact isAlive_kill_self t p
  · rw [if_neg halive]
    exact halive

theorem stop_preview_dead_mono (hd : Option Nat) (t : ProcTable) (p : Nat)
    (hp : ¬ t.isAlive p) : ¬ (stop_preview hd t).2.isAlive p := by
  cases hd with
  | none => exact hp
  | some q =>
    unfold stop_preview
    dsimp only
    split
    · exact isAlive_kill_mono t p q hp
    · exact hp

theorem menu_audio_stop_kills (a : MenuAudio) (t : ProcTable) (p : Nat)
    (hp : a.proc = some p) : ¬ (menu_audio_stop a t).2.isAlive p := by
  unfold menu_audio_stop
  rw [hp]
  dsimp only
  by_cases halive : t.isAlive p
  · rw [if_pos halive]
    exact isAlive_kill_self t p
  · rw [if_neg halive]
    exact halive

theorem menu_audio_stop_proc (a : MenuAudio) (t : ProcTable) :
    (menu_audio_stop a t).1.proc = none := by
  unfold menu_audio_stop
  cases a.proc <;> rfl

theorem stop_preview_fst (hd : Option Nat) (t : ProcTable) :
    (stop_preview hd t).1 = none := by
  unfold stop_preview
  cases hd <;> rfl

/-
Claim C6.
-/

/-- C6: every sequence of start/stop calls on a fresh preview handle — and
likewise on a fresh background-audio manager — leaves at most one live
owned process (starting while one runs stops it synchronously before
spawning); and concretely, `start_preview pathA 0` followed by
`start_preview pathB 10` with no intervening stop leaves exactly the one
live process pid 1, anchored to `pathB` at offset `10`. -/
theorem C6_thm :
    (∀ ops : List PrevOp,
        (runPrevOps ops (none, initTable)).2.aliveList.length ≤ 1)
    ∧ (∀ ops : List AudOp,
        (runAudOps ops (menu_audio_init "menu.mp3" 45, initTable)).2.aliveList.length ≤ 1)
    ∧ runPrevOps [PrevOp.start "pathA" 0 true, PrevOp.start "pathB" 10 true]
        (none, initTable)
        = (some 1, { nextPid := 2, aliveList := [1],
                     spawnLog := [(1, "pathB", 10), (0, "pathA", 0)] }) := by
  refine ⟨?_, ?_, rfl⟩
  · intro ops
    exact handleOwned_len _ (runPrevOps_owned ops (none, initTable) (Or.inl ⟨rfl, rfl⟩))
  · intro ops
    exact audioOwned_len _ (runAudOps_owned ops _ (Or.inl ⟨rfl, rfl⟩))

/-
Claim C7.
-/

/-- C7: from any state, in root or guide mode, `close_menu` leaves the
background-audio handle and the preview handle empty, the window hidden,
zero live owned processes, and the processes the two handles owned before
the call are no longer alive. -/
theorem C7_thm (w : AVWin) (t : ProcTable) (_h : w.mode = "root" ∨ w.mode = "guide") :
    (close_menu w t).1.audio.proc = none
    ∧ (close_menu w t).1.preview_proc = none
    ∧ (close_menu w t).1.visible = false
    ∧ ownedLive (close_menu w t).1.preview_proc (close_menu w t).2 = 0
    ∧ ownedLive (close_menu w t).1.audio.proc (close_menu w t).2 = 0
    ∧ ownedLive w.preview_proc (close_menu w t).2 = 0
    ∧ ownedLive w.audio.proc (close_menu w t).2 = 0 := by
  have hap : (close_menu w t).1.audio.proc = none := menu_audio_stop_proc w.audio t
  have hpp : (close_menu w t).1.preview_proc = none :=
    stop_preview_fst w.preview_proc (menu_audio_stop w.audio t).2
  have hkeyPrev : ∀ p, w.preview_proc = some p → ¬ (close_menu w t).2.isAlive p := by
    intro p hp
    show ¬ (stop_preview w.preview_proc (menu_audio_stop w.audio t).2).2.isAlive p
    exact stop_preview_kills _ _ p hp
  have hkeyAud : ∀ p, w.audio.proc = some p → ¬ (close_menu w t).2.isAlive p := by
    intro p hp
    show ¬ (stop_preview w.preview_proc (menu_audio_stop w.audio t).2).2.isAlive p
    exact stop_preview_dead_mono _ _ p (menu_audio_stop_kills w.audio t p hp)
  refine ⟨hap, hpp, rfl, ?_, ?_, ?_, ?_⟩
  · rw [hpp]
    rfl
  · rw [hap]
    rfl
  · cases hp : w.preview_proc with
    | none => rfl
    | some p =>
      unfold ownedLive
      dsimp only
      rw [if_neg (hkeyPrev p hp)]
  · cases hp : w.audio.proc with
    | none => rfl
    | some p =>
      unfold ownedLive
      dsimp only
      rw [if_neg (hkeyAud p hp)]

/-- The concrete window of the C7 witness: root mode, both handles owning
live processes 3 and 5. -/
def avWin : AVWin :=
  { mode := "root"
    visible := true
    preview_proc := some 5
    audio := { path := "menu.mp3", volume := 45, proc := some 3 } }

/-- The table of the C7 witness. -/
def avTable : ProcTable :=
  { nextPid := 6, aliveList := [3, 5], spawnLog := [(5, "movie.mp4", 40), (3, "menu.mp3", 0)] }

/-- C7 witness: closing the concrete root-mode window. -/
theorem C7_witness :
    (avWin.mode = "root" ∨ avWin.mode = "guide")
    ∧ ((close_menu avWin avTable).1.audio.proc = none
       ∧ (close_menu avWin avTable).1.preview_proc = none
       ∧ (close_menu avWin avTable).1.visible = false
       ∧ ownedLive (close_menu avWin avTable).1.preview_proc (close_menu avWin avTable).2 = 0
       ∧ ownedLive (close_menu avWin avTable).1.audio.proc (close_menu avWin avTable).2 = 0
       ∧ ownedLive avWin.preview_proc (close_menu avWin avTable).2 = 0
       ∧ ownedLive avWin.audio.proc (close_menu avWin avTable).2 = 0) :=
  ⟨Or.inl rfl, C7_thm avWin avTable (Or.inl rfl)⟩

end FSX
